import Mathlib

/-!
Shallow embedding of the Sentinels of the Multiverse setup generator
(`app.go`, package `sentinels`) for verification of its specification.

Modelling conventions:
* Go `int` becomes `Int`; list indices and RNG positions are `Nat`.
* The process-wide pseudorandom source (`math/rand`) is an oracle stream
  `g : Nat → Nat` together with a cursor `k : Nat`; each `rand.Intn n`
  call reads `g k % n` and advances the cursor, mirroring Go's sequential
  consumption of the generator.
* A Go runtime panic (`rand.Intn` with a non-positive bound, slice index
  out of range, `log.Fatalf`) is the `crash` outcome.
* The unbounded duplicate-base retry loop inside `makeSetup` is given
  explicit fuel; running out of fuel is the `spin` outcome (the Go code
  would still be looping).
* `GetCardSet` iterates a Go map, whose iteration order is unspecified, so
  the eligible pool (`CardSet`) is passed to `FindSetup` as an explicit
  argument, exactly as the specification's `pool` parameter does.
-/

namespace Sentinels

set_option maxRecDepth 16384

/-- CardType from app.go: Hero / Villain / Environment. -/
inductive CardType where
  | Hero
  | Villain
  | Environment
deriving DecidableEq

/-- ExpansionType from app.go. -/
inductive ExpansionType where
  | BaseSet
  | MiniExpansion
  | RookCity
  | InfernalRelics
  | ShatteredTimelines
  | Vengeance
  | Promos
deriving DecidableEq

/-- Card from app.go (field `Type` is renamed `type` because `Type` is a
Lean keyword). -/
structure Card where
  Name : String
  type : CardType
  Expansion : ExpansionType
  Points : Int
  Advanced : Int
  AdvCount : Int
  Base : String
deriving DecidableEq

/-- CardSet from app.go: the eligible pool built by `GetCardSet`. -/
structure CardSet where
  Heroes : List Card
  Villains : List Card
  Environments : List Card
deriving DecidableEq

/-- Difficulty record from app.go (one JSON entry). -/
structure Difficulty where
  Name : String
  Base : String
  Points : Int
  Advanced : Int
  AdvCount : Int
  Promo : Bool
deriving DecidableEq

/-- ScaleData from app.go: one calibration breakpoint (total score, loss
percentage). -/
structure ScaleData where
  Total : Int
  LossPct : Int
deriving DecidableEq

/-- DifficultyData from app.go. -/
structure DifficultyData where
  Hero : List Difficulty
  Villain : List Difficulty
  Env : List Difficulty
  Nump : List Difficulty
deriving DecidableEq

/-- SentinelsData from app.go: everything unmarshaled from the JSON. -/
structure SentinelsData where
  Difficulty : DifficultyData
  Scale : List ScaleData
deriving DecidableEq

/-- Setup from app.go. In Go the `Villain` and `Environment` pointers start
nil; the embedding only ever builds a `Setup` value at the point where the
Go code has filled every field. -/
structure Setup where
  Heroes : List Card
  Villain : Card
  Environment : Card
  PcPoints : Int
  Difficulty : Int
deriving DecidableEq

/-- The pseudorandom oracle: an infinite stream of raw draws. -/
abbrev Rng := Nat → Nat

/-- Go `rand.Intn n` at cursor `k`: crashes (`none`) when `n = 0` (Go
panics for a non-positive bound), otherwise yields a value `< n` and the
advanced cursor. -/
def randIntn (g : Rng) (k : Nat) (n : Nat) : Option (Nat × Nat) :=
  if n = 0 then none else some (g k % n, k + 1)

/-- Go `vals[a], vals[b] = vals[b], vals[a]`: both reads happen before the
writes. Out-of-range indices leave the list unchanged (never reached by
`pick`). -/
def listSwap (l : List Nat) (a b : Nat) : List Nat :=
  match l[a]?, l[b]? with
  | some x, some y => (l.set a y).set b x
  | _, _ => l

/-- The Fisher-Yates style loop inside `pick`: `c` iterations remain,
`i` is the Go loop counter, `k` the RNG cursor. Each step draws
`j := rand.Intn (N - i)` (always positive inside the loop, so no crash)
and swaps positions `i` and `i + j`. -/
def shuffleSteps (g : Rng) (N : Nat) : Nat → Nat → Nat → List Nat → List Nat
  | 0, _, _, vals => vals
  | c + 1, k, i, vals =>
      shuffleSteps g N c (k + 1) (i + 1) (listSwap vals i (i + g k % (N - i)))

/-- pick from app.go: m different random numbers between 0 and n-1.
`none` models `log.Fatalf` (a crash) on `n <= 0 || m <= 0 || m > n`.
The shuffle consumes exactly `n` raw draws. -/
def pick (n m : Int) (g : Rng) (k : Nat) : Option (List Nat × Nat) :=
  if n ≤ 0 ∨ m ≤ 0 ∨ n < m then none
  else some ((shuffleSteps g n.toNat n.toNat k 0 (List.range n.toNat)).take m.toNat,
             k + n.toNat)

/-- The inner `for _, i := range pick(...)` loop of `makeSetup`: walks the
picked indices keeping the set of seen bases, the heroes chosen so far and
the running difficulty. Outer `none`: an index out of range (a crash,
never reached for `pick` results). Inner `none` in the pair: a duplicate
base was seen, the draw is discarded (`s.Heroes = nil; break`) — note the
running difficulty `d` is NOT rolled back, exactly as in the Go code. -/
def heroFold (cs : CardSet) :
    List Nat → List String → List Card → Int → Option (Option (List Card) × Int)
  | [], _, hs, d => some (some hs, d)
  | i :: rest, bases, hs, d =>
      match cs.Heroes[i]? with
      | none => none
      | some c =>
          if c.Base ∈ bases then some (none, d)
          else heroFold cs rest (c.Base :: bases) (hs ++ [c]) (d + c.Points)

/-- Outcome of the hero-drawing retry loop. -/
inductive HeroOutcome where
  | ok : List Card → Int → Nat → HeroOutcome
  | crash : HeroOutcome
  | spin : HeroOutcome
deriving DecidableEq

/-- The unbounded `for { ... }` retry loop of `makeSetup`, with fuel.
Carries the RNG cursor `k` and the accumulated difficulty `d` (which Go
does not reset between attempts). -/
def heroLoop (cs : CardSet) (pc : Int) (g : Rng) : Nat → Nat → Int → HeroOutcome
  | 0, _, _ => .spin
  | fuel + 1, k, d =>
      match pick (cs.Heroes.length : Int) pc g k with
      | none => .crash
      | some (idxs, k2) =>
          match heroFold cs idxs [] [] d with
          | none => .crash
          | some (none, d2) => heroLoop cs pc g fuel k2 d2
          | some (some hs, d2) => .ok hs d2 k2

/-- The structural-error message of `makeSetup`. -/
def tooManyMsg : String := "Too many players for the selected heroes."

/-- Outcome of `makeSetup`: a built setup with the advanced RNG cursor, a
returned Go error, a runtime crash, or fuel exhaustion of the retry loop. -/
inductive MakeResult where
  | made : Setup → Nat → MakeResult
  | mkFailed : String → MakeResult
  | crash : MakeResult
  | spin : MakeResult
deriving DecidableEq

/-- makeSetup from app.go: generates a random setup for the given card set
and scores its difficulty. After the hero loop it draws one villain and
one environment uniformly (`rand.Intn` on the collection length — a crash
when the collection is empty) and adds their points. -/
def makeSetup (cs : CardSet) (pc pcpts : Int) (fuel : Nat) (g : Rng) (k : Nat) :
    MakeResult :=
  if (cs.Heroes.length : Int) < pc then .mkFailed tooManyMsg
  else
    match heroLoop cs pc g fuel k pcpts with
    | .crash => .crash
    | .spin => .spin
    | .ok hs d k2 =>
        match randIntn g k2 cs.Villains.length with
        | none => .crash
        | some (vi, k3) =>
            match cs.Villains[vi]? with
            | none => .crash
            | some v =>
                match randIntn g k3 cs.Environments.length with
                | none => .crash
                | some (ei, k4) =>
                    match cs.Environments[ei]? with
                    | none => .crash
                    | some e =>
                        .made { Heroes := hs, Villain := v, Environment := e,
                                PcPoints := pcpts,
                                Difficulty := d + v.Points + e.Points } k4

/-- The scan loop of `findDifficultyRange`, with the named return values
`min`/`max` (both start at 0) as explicit accumulators `mn`/`mx`. -/
def rangeLoop (l : Int) : List ScaleData → Int → Int → Int × Int
  | [], mn, mx => (mn, mx)
  | v :: rest, mn, mx =>
      if v.LossPct ≤ l - 1 then (mn, mx)
      else if v.LossPct ≤ l then
        rangeLoop l rest v.Total (if mx = 0 then v.Total else mx)
      else rangeLoop l rest mn mx

/-- findDifficultyRange from app.go: minimum and maximum difficulty scores
for a given loss percentage, as the pair (min, max). -/
def SentinelsData.findDifficultyRange (sd : SentinelsData) (l : Int) : Int × Int :=
  rangeLoop l sd.Scale 0 0

/-- The search-exhausted message of `FindSetup`. -/
def exhaustMsg : String := "Couldn't find a setup with these parameters."

/-- Outcome of `FindSetup`: a setup with its reported iteration count, a
returned Go error with the reported iteration count, a crash, or fuel
exhaustion inside a draw. -/
inductive FindResult where
  | found : Setup → Nat → FindResult
  | failed : String → Nat → FindResult
  | crash : FindResult
  | spin : FindResult
deriving DecidableEq

/-- The `for i := 0; ; i++` loop of `FindSetup`. `fuel` is the number of
iterations left before the `i >= 100000` test fires (FindSetup starts it
at 100000 with `i = 0`); on exhaustion Go returns `i + 1` as the count.
An error from `makeSetup` is returned with count 0; an accepted setup is
returned with count `i + 1`. -/
def findSetupLoop (cs : CardSet) (pc pcpts mn mx rg : Int) (fuelM : Nat) :
    Nat → Nat → Rng → Nat → FindResult
  | 0, i, _, _ => .failed exhaustMsg (i + 1)
  | fuel + 1, i, g, k =>
      match makeSetup cs pc pcpts fuelM g k with
      | .mkFailed msg => .failed msg 0
      | .crash => .crash
      | .spin => .spin
      | .made s k2 =>
          if mn - rg ≤ s.Difficulty ∧ s.Difficulty ≤ mx + rg then .found s (i + 1)
          else findSetupLoop cs pc pcpts mn mx rg fuelM fuel (i + 1) g k2

/-- Go slice indexing with an `int` index: crash (`none`) when negative or
past the end. -/
def intGet (l : List Difficulty) (i : Int) : Option Difficulty :=
  if i < 0 then none else l[i.toNat]?

/-- FindSetup from app.go. The eligible pool `cs` stands for
`GetCardSet(exp)` (see the module comment). It computes the band once,
reads `sd.Difficulty.Nump[pc-3].Points` with no bounds check (a crash for
`pc` outside 3..5 when `Nump` has its three real entries), then runs the
trial loop from `i = 0` with the RNG cursor at 0. -/
def FindSetup (sd : SentinelsData) (cs : CardSet) (pc lp rg : Int) (fuelM : Nat)
    (g : Rng) : FindResult :=
  let mnmx := sd.findDifficultyRange lp
  match intGet sd.Difficulty.Nump (pc - 3) with
  | none => .crash
  | some dn => findSetupLoop cs pc dn.Points mnmx.1 mnmx.2 rg fuelM 100000 0 g 0

/-- The sequence of draws the trial loop performs: `drawSeq … k j` is the
result of the `(j+1)`-th call to `makeSetup` when the loop starts at RNG
cursor `k` (each successful draw advances the cursor). -/
def drawSeq (cs : CardSet) (pc pcpts : Int) (fuelM : Nat) (g : Rng) :
    Nat → Nat → MakeResult
  | k, 0 => makeSetup cs pc pcpts fuelM g k
  | k, j + 1 =>
      match makeSetup cs pc pcpts fuelM g k with
      | .made _ k2 => drawSeq cs pc pcpts fuelM g k2 j
      | r => r

/-- The acceptance predicate of the trial loop: the score lies in the
band widened by the tolerance. -/
def inBand (mn mx rg : Int) (s : Setup) : Prop :=
  mn - rg ≤ s.Difficulty ∧ s.Difficulty ≤ mx + rg

instance (mn mx rg : Int) (s : Setup) : Decidable (inBand mn mx rg s) :=
  inferInstanceAs (Decidable (_ ∧ _))

/-- The breakpoints the scan of `findDifficultyRange` actually records for
target `l`: those reached before the stop condition (`LossPct ≤ l - 1`)
fires, whose loss percentage is `≤ l`. -/
def scanMatches (l : Int) (t : List ScaleData) : List ScaleData :=
  (t.takeWhile fun v => !decide (v.LossPct ≤ l - 1)).filter
    fun v => decide (v.LossPct ≤ l)

/-- One recording step of the scan: `min` takes the score, `max` takes it
only while still 0. -/
def bandStep (p : Int × Int) (v : ScaleData) : Int × Int :=
  (v.Total, if p.2 = 0 then v.Total else p.2)

/-- Modelled from claim C3's words (NOT from the source): a scan that
stops only when the loss percentage is STRICTLY less than `l - 1`, so a
breakpoint equal to `l - 1` would not stop it. Used solely to exhibit the
divergence from the source's `rangeLoop`. -/
def claimRangeLoop (l : Int) : List ScaleData → Int → Int → Int × Int
  | [], mn, mx => (mn, mx)
  | v :: rest, mn, mx =>
      if v.LossPct < l - 1 then (mn, mx)
      else if v.LossPct ≤ l then
        claimRangeLoop l rest v.Total (if mx = 0 then v.Total else mx)
      else claimRangeLoop l rest mn mx

/-- The claim-side band lookup built on `claimRangeLoop`. -/
def claimFindDifficultyRange (sd : SentinelsData) (l : Int) : Int × Int :=
  claimRangeLoop l sd.Scale 0 0

/-- The hero difficulty records of the embedded JSON dataset (app.go,
`sdJson`, "difficulty.hero"); omitted JSON fields take Go's zero values. -/
def theHero : List Difficulty := [
  ⟨"NightMist", "", -10, 0, 0, false⟩,
  ⟨"Dark Watch NightMist", "NightMist", 62, 0, 0, false⟩,
  ⟨"Expatriette", "", 28, 0, 0, false⟩,
  ⟨"Dark Watch Expatriette", "Expatriette", 42, 0, 0, false⟩,
  ⟨"Absolute Zero", "", 25, 0, 0, false⟩,
  ⟨"Absolute Zero Elemental Wrath", "Absolute Zero", 31, 0, 0, false⟩,
  ⟨"Bunker", "", 26, 0, 0, false⟩,
  ⟨"Bunker Engine of War", "Bunker", 20, 0, 0, false⟩,
  ⟨"GI Bunker", "Bunker", -4, 0, 0, false⟩,
  ⟨"Mr. Fixer", "", 27, 0, 0, false⟩,
  ⟨"Dark Watch Fixer", "Mr. Fixer", 10, 0, 0, false⟩,
  ⟨"Setback", "", 41, 0, 0, false⟩,
  ⟨"Dark Watch Setback", "Setback", 10, 0, 0, false⟩,
  ⟨"Haka", "", -5, 0, 0, false⟩,
  ⟨"The Eternal Haka", "Haka", -7, 0, 0, false⟩,
  ⟨"Ra", "", -7, 0, 0, false⟩,
  ⟨"Ra: Horus of Two Horizons", "Ra", -20, 0, 0, false⟩,
  ⟨"Wraith", "", -6, 0, 0, false⟩,
  ⟨"Wraith: Price of Freedom", "Wraith", -19, 0, 0, false⟩,
  ⟨"Rook City Wraith", "Wraith", 12, 0, 0, false⟩,
  ⟨"Tempest", "", -17, 0, 0, false⟩,
  ⟨"Tempest; Freedom", "Tempest", 1, 0, 0, false⟩,
  ⟨"Fanatic", "", -1, 0, 0, false⟩,
  ⟨"Redeemer Fanatic", "Fanatic", -31, 0, 0, false⟩,
  ⟨"Tachyon", "", -9, 0, 0, false⟩,
  ⟨"Team Leader Tachyon", "Tachyon", -71, 0, 0, false⟩,
  ⟨"Legacy", "", -45, 0, 0, false⟩,
  ⟨"Young Legacy", "Legacy", -24, 0, 0, false⟩,
  ⟨"The Greatest Legacy", "Legacy", -89, 0, 0, false⟩,
  ⟨"The Visionary", "", -14, 0, 0, false⟩,
  ⟨"Dark Visionary", "The Visionary", -37, 0, 0, false⟩,
  ⟨"Unity", "", 5, 0, 0, false⟩,
  ⟨"Golem Unity", "Unity", -14, 0, 0, false⟩,
  ⟨"Parse", "", 30, 0, 0, false⟩,
  ⟨"The Sentinels", "", 30, 0, 0, false⟩,
  ⟨"The Argent Adept", "", 11, 0, 0, false⟩,
  ⟨"The Naturalist", "", 9, 0, 0, false⟩,
  ⟨"Chrono-Ranger", "", -11, 0, 0, false⟩,
  ⟨"The Scholar", "", -18, 0, 0, false⟩,
  ⟨"K.N.Y.F.E.", "", -32, 0, 0, false⟩,
  ⟨"Omnitron-X", "", -42, 0, 0, false⟩
]

/-- The villain difficulty records of the embedded JSON dataset. -/
def theVillain : List Difficulty := [
  ⟨"Baron Blade", "", -63, 4, 170, false⟩,
  ⟨"Mad Bomber Blade", "Baron Blade", -37, 12, 61, false⟩,
  ⟨"Gloomweaver", "", -113, -71, 107, false⟩,
  ⟨"Skinwalker Gloomweaver", "Gloomweaver", 6, -4, 2, false⟩,
  ⟨"Spite", "", -21, -25, 42, false⟩,
  ⟨"Agent of Gloom Spite", "Spite", 5, 0, 0, false⟩,
  ⟨"Omnitron", "", 7, 39, 93, false⟩,
  ⟨"Cosmic Omnitron", "Omnitron", 63, 82, 51, false⟩,
  ⟨"The Chairman", "", 76, 46, 66, false⟩,
  ⟨"Iron Legacy", "", 70, 105, 62, false⟩,
  ⟨"The Matriarch", "", 57, 40, 66, false⟩,
  ⟨"The Dreamer", "", 39, 52, 55, false⟩,
  ⟨"Vengeful Five", "", 36, 0, 0, false⟩,
  ⟨"Citizen Dawn", "", 11, 56, 85, false⟩,
  ⟨"La Capitan", "", 8, 9, 66, false⟩,
  ⟨"Grand Warlord Voss", "", -21, 71, 115, false⟩,
  ⟨"Plague Rat", "", -25, 80, 86, false⟩,
  ⟨"Apostate", "", -37, -46, 102, false⟩,
  ⟨"Kismet", "", -52, -31, 89, false⟩,
  ⟨"Miss Information", "", -57, 100, 64, false⟩,
  ⟨"Akash'bhuta", "", -60, 20, 94, false⟩,
  ⟨"The Ennead", "", -80, 66, 97, false⟩,
  ⟨"Ambuscade", "", -128, -89, 87, false⟩
]

/-- The environment difficulty records of the embedded JSON dataset. -/
def theEnv : List Difficulty := [
  ⟨"Rook City", "", 74, 0, 0, false⟩,
  ⟨"Ruins of Atlantis", "", 36, 0, 0, false⟩,
  ⟨"Insula Primalis", "", 3, 0, 0, false⟩,
  ⟨"Pike Industrial Complex", "", 3, 0, 0, false⟩,
  ⟨"Time Cataclysm", "", 0, 0, 0, false⟩,
  ⟨"Tomb of Anubis", "", -2, 0, 0, false⟩,
  ⟨"Wagner Mars Base", "", -3, 0, 0, false⟩,
  ⟨"Silver Gulch, 1883", "", -4, 0, 0, false⟩,
  ⟨"Mobile Defense Platform", "", -4, 0, 0, false⟩,
  ⟨"Realm of Discord", "", -8, 0, 0, false⟩,
  ⟨"Megalopolis", "", -9, 0, 0, false⟩,
  ⟨"Freedom Tower", "", -32, 0, 0, false⟩,
  ⟨"The Block", "", -61, 0, 0, false⟩,
  ⟨"The Final Wasteland", "", -74, 0, 0, false⟩
]

/-- The per-player-count offsets of the embedded JSON dataset
("difficulty.nump"): Three = 42, Four = -38, Five = -42. -/
def theNump : List Difficulty := [
  ⟨"Three", "", 42, 0, 0, false⟩,
  ⟨"Four", "", -38, 0, 0, false⟩,
  ⟨"Five", "", -42, 0, 0, false⟩
]

/-- Chunk 1 of the calibration table (the list literal is split to keep elaboration cheap). -/
def theScale1 : List ScaleData := [
  ⟨500, 99⟩,
  ⟨495, 99⟩,
  ⟨490, 98⟩,
  ⟨484, 98⟩,
  ⟨480, 98⟩,
  ⟨475, 98⟩,
  ⟨470, 98⟩,
  ⟨465, 98⟩,
  ⟨459, 98⟩,
  ⟨455, 98⟩,
  ⟨450, 97⟩,
  ⟨445, 97⟩,
  ⟨440, 97⟩,
  ⟨434, 97⟩,
  ⟨430, 97⟩,
  ⟨425, 97⟩,
  ⟨420, 96⟩,
  ⟨415, 96⟩,
  ⟨409, 96⟩,
  ⟨405, 96⟩,
  ⟨400, 95⟩,
  ⟨395, 95⟩,
  ⟨390, 95⟩,
  ⟨385, 95⟩,
  ⟨380, 94⟩,
  ⟨375, 94⟩,
  ⟨370, 94⟩,
  ⟨365, 94⟩,
  ⟨360, 93⟩,
  ⟨355, 93⟩,
  ⟨350, 92⟩,
  ⟨345, 92⟩,
  ⟨340, 92⟩,
  ⟨335, 91⟩,
  ⟨330, 91⟩,
  ⟨325, 90⟩,
  ⟨320, 90⟩,
  ⟨315, 90⟩,
  ⟨310, 89⟩,
  ⟨305, 88⟩
]

/-- Chunk 2 of the calibration table (the list literal is split to keep elaboration cheap). -/
def theScale2 : List ScaleData := [
  ⟨300, 88⟩,
  ⟨295, 87⟩,
  ⟨290, 87⟩,
  ⟨285, 86⟩,
  ⟨280, 86⟩,
  ⟨275, 85⟩,
  ⟨270, 84⟩,
  ⟨265, 84⟩,
  ⟨260, 83⟩,
  ⟨254, 82⟩,
  ⟨250, 81⟩,
  ⟨245, 81⟩,
  ⟨240, 80⟩,
  ⟨235, 79⟩,
  ⟨229, 78⟩,
  ⟨225, 77⟩,
  ⟨220, 76⟩,
  ⟨215, 75⟩,
  ⟨210, 74⟩,
  ⟨204, 73⟩,
  ⟨200, 72⟩,
  ⟨195, 71⟩,
  ⟨190, 70⟩,
  ⟨185, 69⟩,
  ⟨180, 68⟩,
  ⟨175, 67⟩,
  ⟨170, 66⟩,
  ⟨165, 65⟩,
  ⟨160, 64⟩,
  ⟨155, 63⟩,
  ⟨150, 61⟩,
  ⟨145, 60⟩,
  ⟨140, 59⟩,
  ⟨135, 58⟩,
  ⟨130, 57⟩,
  ⟨125, 55⟩,
  ⟨120, 54⟩,
  ⟨114, 53⟩,
  ⟨110, 52⟩,
  ⟨105, 50⟩
]

/-- Chunk 3 of the calibration table (the list literal is split to keep elaboration cheap). -/
def theScale3 : List ScaleData := [
  ⟨100, 49⟩,
  ⟨95, 48⟩,
  ⟨90, 47⟩,
  ⟨85, 45⟩,
  ⟨80, 44⟩,
  ⟨75, 43⟩,
  ⟨70, 42⟩,
  ⟨65, 40⟩,
  ⟨60, 39⟩,
  ⟨55, 38⟩,
  ⟨50, 37⟩,
  ⟨45, 36⟩,
  ⟨40, 35⟩,
  ⟨35, 34⟩,
  ⟨30, 32⟩,
  ⟨25, 31⟩,
  ⟨20, 30⟩,
  ⟨15, 29⟩,
  ⟨10, 28⟩,
  ⟨5, 27⟩,
  ⟨0, 26⟩,
  ⟨-5, 25⟩,
  ⟨-10, 24⟩,
  ⟨-15, 24⟩,
  ⟨-20, 23⟩,
  ⟨-25, 22⟩,
  ⟨-30, 21⟩,
  ⟨-35, 20⟩,
  ⟨-40, 19⟩,
  ⟨-45, 19⟩,
  ⟨-50, 18⟩,
  ⟨-55, 17⟩,
  ⟨-60, 17⟩,
  ⟨-65, 16⟩,
  ⟨-70, 15⟩,
  ⟨-75, 15⟩,
  ⟨-80, 14⟩,
  ⟨-85, 13⟩,
  ⟨-90, 13⟩,
  ⟨-95, 12⟩
]

/-- Chunk 4 of the calibration table (the list literal is split to keep elaboration cheap). -/
def theScale4 : List ScaleData := [
  ⟨-100, 12⟩,
  ⟨-105, 11⟩,
  ⟨-110, 11⟩,
  ⟨-114, 10⟩,
  ⟨-120, 10⟩,
  ⟨-125, 10⟩,
  ⟨-130, 9⟩,
  ⟨-135, 9⟩,
  ⟨-140, 8⟩,
  ⟨-145, 8⟩,
  ⟨-150, 8⟩,
  ⟨-155, 7⟩,
  ⟨-160, 7⟩,
  ⟨-165, 7⟩,
  ⟨-170, 6⟩,
  ⟨-175, 6⟩,
  ⟨-180, 6⟩,
  ⟨-185, 6⟩,
  ⟨-190, 5⟩,
  ⟨-195, 5⟩,
  ⟨-200, 5⟩,
  ⟨-204, 5⟩,
  ⟨-210, 5⟩,
  ⟨-215, 4⟩,
  ⟨-220, 4⟩,
  ⟨-225, 4⟩,
  ⟨-229, 4⟩,
  ⟨-235, 4⟩,
  ⟨-240, 4⟩,
  ⟨-245, 3⟩,
  ⟨-250, 3⟩,
  ⟨-254, 3⟩,
  ⟨-260, 3⟩,
  ⟨-265, 3⟩,
  ⟨-270, 3⟩,
  ⟨-275, 3⟩,
  ⟨-280, 3⟩,
  ⟨-285, 2⟩,
  ⟨-290, 2⟩,
  ⟨-295, 2⟩
]

/-- Chunk 5 of the calibration table (the list literal is split to keep elaboration cheap). -/
def theScale5 : List ScaleData := [
  ⟨-300, 2⟩,
  ⟨-305, 2⟩,
  ⟨-310, 2⟩,
  ⟨-315, 2⟩,
  ⟨-320, 2⟩,
  ⟨-325, 2⟩,
  ⟨-330, 2⟩,
  ⟨-335, 2⟩,
  ⟨-340, 2⟩,
  ⟨-345, 2⟩,
  ⟨-350, 2⟩,
  ⟨-355, 1⟩,
  ⟨-360, 1⟩,
  ⟨-365, 1⟩,
  ⟨-370, 1⟩,
  ⟨-375, 1⟩,
  ⟨-380, 1⟩,
  ⟨-385, 1⟩,
  ⟨-390, 1⟩,
  ⟨-395, 1⟩,
  ⟨-400, 1⟩,
  ⟨-405, 1⟩,
  ⟨-409, 1⟩,
  ⟨-415, 1⟩,
  ⟨-420, 1⟩,
  ⟨-425, 1⟩,
  ⟨-430, 1⟩,
  ⟨-434, 1⟩,
  ⟨-440, 1⟩,
  ⟨-445, 1⟩,
  ⟨-450, 1⟩,
  ⟨-455, 1⟩,
  ⟨-459, 1⟩,
  ⟨-465, 1⟩,
  ⟨-470, 1⟩,
  ⟨-475, 1⟩,
  ⟨-480, 1⟩,
  ⟨-484, 1⟩,
  ⟨-490, 1⟩,
  ⟨-495, 1⟩
]

/-- The calibration table of the embedded JSON dataset ("scale"): 200 breakpoints in descending score order. -/
def theScale : List ScaleData :=
  theScale1 ++ theScale2 ++ theScale3 ++ theScale4 ++ theScale5

/-- The full parsed dataset, as `parseSentinelsData` leaves it in the
package-level `sd`. -/
def theSd : SentinelsData :=
  { Difficulty := { Hero := theHero, Villain := theVillain, Env := theEnv,
                    Nump := theNump },
    Scale := theScale }

/-- An empty difficulty block, for synthetic calibration tables. -/
def emptyDD : DifficultyData := { Hero := [], Villain := [], Env := [], Nump := [] }

/-- A zero-point villain for the synthetic pools. -/
def v0 : Card :=
  { Name := "V0", type := .Villain, Expansion := .BaseSet, Points := 0,
    Advanced := 0, AdvCount := 0, Base := "V0" }

/-- A zero-point environment for the synthetic pools. -/
def e0 : Card :=
  { Name := "E0", type := .Environment, Expansion := .BaseSet, Points := 0,
    Advanced := 0, AdvCount := 0, Base := "E0" }

/-- Zero-point hero with base "H1". -/
def h1 : Card :=
  { Name := "H1", type := .Hero, Expansion := .BaseSet, Points := 0,
    Advanced := 0, AdvCount := 0, Base := "H1" }

/-- Zero-point hero with base "H2". -/
def h2 : Card :=
  { Name := "H2", type := .Hero, Expansion := .BaseSet, Points := 0,
    Advanced := 0, AdvCount := 0, Base := "H2" }

/-- Zero-point hero with base "H3". -/
def h3 : Card :=
  { Name := "H3", type := .Hero, Expansion := .BaseSet, Points := 0,
    Advanced := 0, AdvCount := 0, Base := "H3" }

/-- Synthetic pool: three distinct-base zero-point heroes, one zero-point
villain, one zero-point environment. -/
def cs3 : CardSet := { Heroes := [h1, h2, h3], Villains := [v0], Environments := [e0] }

/-- Synthetic pool with no villain record at all. -/
def csNoVillain : CardSet := { Heroes := [h1, h2, h3], Villains := [], Environments := [e0] }

/-- Hero card A: base "A", +10 points. -/
def cA : Card :=
  { Name := "A", type := .Hero, Expansion := .BaseSet, Points := 10,
    Advanced := 0, AdvCount := 0, Base := "A" }

/-- Hero card A2: a variant with the same base "A", +5 points. -/
def cA2 : Card :=
  { Name := "A2", type := .Hero, Expansion := .BaseSet, Points := 5,
    Advanced := 0, AdvCount := 0, Base := "A" }

/-- Hero card B: base "B", -10 points. -/
def cB : Card :=
  { Name := "B", type := .Hero, Expansion := .BaseSet, Points := -10,
    Advanced := 0, AdvCount := 0, Base := "B" }

/-- Synthetic pool for the score-leak scenario: two heroes share base "A". -/
def csLeak : CardSet := { Heroes := [cA, cA2, cB], Villains := [v0], Environments := [e0] }

/-- The all-zero random oracle. -/
def gZ : Rng := fun _ => 0

/-- Random oracle for the leak scenario: the first draw picks the two
base-"A" heroes, the retry picks heroes A and B. -/
def gLeak : Rng := fun n => if n = 4 then 1 else 0

/-- The setup `makeSetup` builds from `cs3` under `gZ` with offset 42. -/
def s42Setup : Setup :=
  { Heroes := [h1, h2, h3], Villain := v0, Environment := e0,
    PcPoints := 42, Difficulty := 42 }

/-- The setup `makeSetup` builds in the leak scenario: heroes A and B,
yet with difficulty 10 (the discarded draw leaked +10). -/
def sLeakWit : Setup :=
  { Heroes := [cA, cB], Villain := v0, Environment := e0,
    PcPoints := 0, Difficulty := 10 }

/-- The scan of `findDifficultyRange` never looks past the first breakpoint
whose loss percentage is at most `l - 1`: whatever the accumulator state,
the tail after such a breakpoint is ignored. -/
lemma rangeLoop_append_stop (l : Int) (v : ScaleData) (rest : List ScaleData)
    (hv : v.LossPct ≤ l - 1) :
    ∀ (pre : List ScaleData) (mn mx : Int),
      (∀ u ∈ pre, ¬ u.LossPct ≤ l - 1) →
      rangeLoop l (pre ++ v :: rest) mn mx = rangeLoop l pre mn mx := by
  intro pre
  induction pre with
  | nil =>
      intro mn mx _
      simp [rangeLoop, hv]
  | cons u pre ih =>
      intro mn mx hpre
      have hu : ¬ u.LossPct ≤ l - 1 := hpre u (List.mem_cons_self u pre)
      have hpre2 : ∀ w ∈ pre, ¬ w.LossPct ≤ l - 1 :=
        fun w hw => hpre w (List.mem_cons_of_mem u hw)
      by_cases h2 : u.LossPct ≤ l
      · simp only [List.cons_append, rangeLoop, if_neg hu, if_pos h2]
        exact ih _ _ hpre2
      · simp only [List.cons_append, rangeLoop, if_neg hu, if_neg h2]
        exact ih _ _ hpre2

/-- The scan is the fold of `bandStep` over the breakpoints it records. -/
lemma rangeLoop_eq_foldl (l : Int) :
    ∀ (t : List ScaleData) (mn mx : Int),
      rangeLoop l t mn mx = (scanMatches l t).foldl bandStep (mn, mx) := by
  intro t
  induction t with
  | nil => intro mn mx; simp [rangeLoop, scanMatches]
  | cons v rest ih =>
      intro mn mx
      by_cases h1 : v.LossPct ≤ l - 1
      · have hs : scanMatches l (v :: rest) = [] := by
          simp [scanMatches, List.takeWhile_cons, h1]
        simp [rangeLoop, h1, hs]
      · by_cases h2 : v.LossPct ≤ l
        · have hs : scanMatches l (v :: rest) = v :: scanMatches l rest := by
            simp [scanMatches, List.takeWhile_cons, h1, h2]
          rw [hs, List.foldl_cons]
          simp only [rangeLoop, if_neg h1, if_pos h2]
          rw [ih]
          rfl
        · have hs : scanMatches l (v :: rest) = scanMatches l rest := by
            simp [scanMatches, List.takeWhile_cons, h1, h2]
          rw [hs]
          simp only [rangeLoop, if_neg h1, if_neg h2]
          exact ih _ _

/-- With a nonzero latched maximum, folding `bandStep` keeps the maximum and
moves the minimum to the last recorded score. -/
lemma foldl_bandStep_of_ne (M : Int) (hM : M ≠ 0) :
    ∀ (ms : List ScaleData) (x : ScaleData),
      ms.foldl bandStep (x.Total, M) = ((ms.getLastD x).Total, M) := by
  intro ms
  induction ms with
  | nil => intro x; simp
  | cons m ms ih =>
      intro x
      have hstep : bandStep (x.Total, M) m = (m.Total, M) := by simp [bandStep, hM]
      rw [List.foldl_cons, hstep, ih m, List.getLastD_cons]

/-- C3, amended: for every target loss percentage, findDifficultyRange walks
the breakpoints in stored order and stops scanning at the FIRST breakpoint
whose loss percentage is at most targetLossPct - 1 (equivalently, strictly
less than targetLossPct); in particular a breakpoint with loss percentage
exactly targetLossPct - 1 DOES stop the scan. -/
theorem C3_scan_stop (dd : DifficultyData) (l : Int) (pre rest : List ScaleData)
    (v : ScaleData) (hpre : ∀ u ∈ pre, ¬ u.LossPct ≤ l - 1)
    (hv : v.LossPct ≤ l - 1) :
    SentinelsData.findDifficultyRange ⟨dd, pre ++ v :: rest⟩ l =
      SentinelsData.findDifficultyRange ⟨dd, pre⟩ l :=
  rangeLoop_append_stop l v rest hv pre 0 0 hpre

/-- Witness for C3_scan_stop: table [(100,85), (90,79), (80,78)] with target
80 scans exactly as the table [(100,85)] does — the scan stops on (90,79). -/
theorem C3_scan_stop_witness :
    SentinelsData.findDifficultyRange
        ⟨emptyDD, [⟨100, 85⟩] ++ ⟨90, 79⟩ :: [⟨80, 78⟩]⟩ 80 =
      SentinelsData.findDifficultyRange ⟨emptyDD, [⟨100, 85⟩]⟩ 80 :=
  C3_scan_stop emptyDD 80 [⟨100, 85⟩] [⟨80, 78⟩] ⟨90, 79⟩ (by decide) (by decide)

/-- C3, counterexample: on the table [(100,79)] with target 80 the single
breakpoint has loss percentage 79 = 80 - 1. Under the claim the scan would
not stop there, would record the breakpoint (79 is at most 80) and return
(100,100) — as the claim-side scan claimFindDifficultyRange does — but the
source's scan stops on it and returns (0,0). -/
theorem C3_cx :
    SentinelsData.findDifficultyRange ⟨emptyDD, [⟨100, 79⟩]⟩ 80 = (0, 0) ∧
    claimFindDifficultyRange ⟨emptyDD, [⟨100, 79⟩]⟩ 80 = (100, 100) ∧
    ((0 : Int), (0 : Int)) ≠ ((100 : Int), (100 : Int)) :=
  ⟨rfl, rfl, by decide⟩

/-- C4, amended: whenever the run of recorded breakpoints is nonempty and its
FIRST breakpoint has a nonzero score, the lookup returns maxScore = that first
breakpoint's score and minScore = the last recorded breakpoint's score. (When
the first recorded score is exactly 0, the max latch `if max == 0` can fire
again on a later match, so the claim's "first match wins for max" fails; no
breakpoint of the shipped table has score 0 alongside a later equal-percentage
breakpoint, and the concrete scenario of the claim is recovered in the
witness.) -/
theorem C4_band_run (dd : DifficultyData) (t : List ScaleData) (l : Int)
    (m : ScaleData) (ms : List ScaleData)
    (h1 : scanMatches l t = m :: ms) (h2 : m.Total ≠ 0) :
    SentinelsData.findDifficultyRange ⟨dd, t⟩ l =
      ((ms.getLastD m).Total, m.Total) := by
  show rangeLoop l t 0 0 = _
  rw [rangeLoop_eq_foldl l t 0 0, h1, List.foldl_cons]
  have hstep : bandStep (0, 0) m = (m.Total, m.Total) := by simp [bandStep]
  rw [hstep, foldl_bandStep_of_ne m.Total h2 ms m]

/-- Witness for C4_band_run: the claim's concrete scenario — breakpoints
[(100,90),(90,80),(80,80),(70,70)] with target 80 give the band
(minScore, maxScore) = (80, 90). -/
theorem C4_band_run_witness :
    SentinelsData.findDifficultyRange
        ⟨emptyDD, [⟨100, 90⟩, ⟨90, 80⟩, ⟨80, 80⟩, ⟨70, 70⟩]⟩ 80 = (80, 90) := by
  have h := C4_band_run emptyDD [⟨100, 90⟩, ⟨90, 80⟩, ⟨80, 80⟩, ⟨70, 70⟩] 80
    ⟨90, 80⟩ [⟨80, 80⟩] (by decide) (by decide)
  simpa using h

/-- C4, counterexample: on the table [(0,80),(-5,80)] with target 80 both
breakpoints are recorded and the FIRST matching breakpoint has score 0, so the
claim demands maxScore = 0; but the code latches max only while it is still
0, the second match re-latches it, and the lookup returns (-5,-5) — its
maxScore is -5, not the first match's score 0. -/
theorem C4_cx :
    scanMatches 80 [⟨0, 80⟩, ⟨-5, 80⟩] = [⟨0, 80⟩, ⟨-5, 80⟩] ∧
    SentinelsData.findDifficultyRange ⟨emptyDD, [⟨0, 80⟩, ⟨-5, 80⟩]⟩ 80 = (-5, -5) ∧
    (SentinelsData.findDifficultyRange ⟨emptyDD, [⟨0, 80⟩, ⟨-5, 80⟩]⟩ 80).2 ≠ (0 : Int) :=
  ⟨by decide, by decide, by decide⟩

/-- The recording branch never fires when no breakpoint matches exactly. -/
lemma rangeLoop_no_match (l : Int) :
    ∀ t : List ScaleData, (∀ v ∈ t, v.LossPct ≠ l) → rangeLoop l t 0 0 = (0, 0) := by
  intro t
  induction t with
  | nil => intro _; rfl
  | cons v rest ih =>
      intro h
      have hv : v.LossPct ≠ l := h v (List.mem_cons_self v rest)
      have hrest : ∀ u ∈ rest, u.LossPct ≠ l :=
        fun u hu => h u (List.mem_cons_of_mem v hu)
      by_cases h1 : v.LossPct ≤ l - 1
      · simp [rangeLoop, h1]
      · have h2 : ¬ v.LossPct ≤ l := by omega
        simp only [rangeLoop, if_neg h1, if_neg h2]
        exact ih hrest

/-- C6: for every target loss percentage with no exactly-matching breakpoint
anywhere in the table, the band lookup returns the degenerate band (0,0). -/
theorem C6_no_match (dd : DifficultyData) (t : List ScaleData) (l : Int)
    (h : ∀ v ∈ t, v.LossPct ≠ l) :
    SentinelsData.findDifficultyRange ⟨dd, t⟩ l = (0, 0) :=
  rangeLoop_no_match l t h

/-- Witness for C6_no_match: the shipped table has no breakpoint with loss
percentage 100, so the band for 100 is (0,0). -/
theorem C6_no_match_witness :
    SentinelsData.findDifficultyRange theSd 100 = (0, 0) :=
  C6_no_match
    { Hero := theHero, Villain := theVillain, Env := theEnv, Nump := theNump }
    theScale 100 (by decide)

/-- C10: FindSetup reads Nump[pc-3] with no bounds check; with the real
three-entry Nump table any player count outside 3..5 makes that lookup go
out of bounds, so the call crashes (a Go panic) instead of returning a
result or an error — even though the web handler passes the user-supplied
player count through unvalidated. -/
theorem C10_pc_bounds (cs : CardSet) (pc lp rg : Int) (fuelM : Nat) (g : Rng)
    (h : pc < 3 ∨ 5 < pc) :
    FindSetup theSd cs pc lp rg fuelM g = .crash := by
  have hnone : intGet theSd.Difficulty.Nump (pc - 3) = none := by
    rcases h with h | h
    · simp [intGet, show pc - 3 < 0 by omega]
    · have h3 : ¬ pc - 3 < 0 := by omega
      have hlen : theSd.Difficulty.Nump.length = 3 := rfl
      unfold intGet
      rw [if_neg h3]
      apply List.getElem?_eq_none
      rw [hlen]
      omega
  simp only [FindSetup, hnone]

/-- Witness for C10_pc_bounds at player count 2. -/
theorem C10_pc_bounds_witness : FindSetup theSd cs3 2 50 10 2 gZ = .crash :=
  C10_pc_bounds cs3 2 50 10 2 gZ (Or.inl (by decide))

/-- A simultaneous swap never changes the length of the value array. -/
lemma listSwap_length (l : List Nat) (a b : Nat) :
    (listSwap l a b).length = l.length := by
  unfold listSwap
  cases h1 : l[a]? with
  | none => rfl
  | some x =>
      cases h2 : l[b]? with
      | none => rfl
      | some y => simp

/-- The shuffle loop never changes the length of the value array. -/
lemma shuffleSteps_length (g : Rng) (N : Nat) :
    ∀ (c k i : Nat) (vals : List Nat),
      (shuffleSteps g N c k i vals).length = vals.length := by
  intro c
  induction c with
  | zero => intro k i vals; rfl
  | succ c ih =>
      intro k i vals
      simp only [shuffleSteps]
      rw [ih, listSwap_length]

/-- When pick returns, `m` was positive and at most `n`, and the returned
index list has exactly `m.toNat` entries. -/
lemma pick_ok (n m : Int) (g : Rng) (k : Nat) (idxs : List Nat) (k2 : Nat)
    (h : pick n m g k = some (idxs, k2)) :
    0 < m ∧ m ≤ n ∧ idxs.length = m.toNat := by
  unfold pick at h
  by_cases hg : n ≤ 0 ∨ m ≤ 0 ∨ n < m
  · rw [if_pos hg] at h; simp at h
  · rw [if_neg hg] at h
    push_neg at hg
    obtain ⟨hn, hm, hnm⟩ := hg
    refine ⟨by omega, by omega, ?_⟩
    have hfst : (shuffleSteps g n.toNat n.toNat k 0 (List.range n.toNat)).take m.toNat
        = idxs := congrArg Prod.fst (Option.some.inj h)
    rw [← hfst, List.length_take, shuffleSteps_length, List.length_range]
    omega

/-- A successful pass of the inner hero loop appends one hero per picked
index, every appended base being new relative to the seen set. -/
lemma heroFold_ok (cs : CardSet) :
    ∀ (idxs : List Nat) (bases : List String) (hs0 : List Card) (d : Int)
      (hs : List Card) (d2 : Int),
      heroFold cs idxs bases hs0 d = some (some hs, d2) →
      hs0.Pairwise (fun a b => a.Base ≠ b.Base) →
      (∀ c ∈ hs0, c.Base ∈ bases) →
      hs.length = hs0.length + idxs.length ∧
        hs.Pairwise (fun a b => a.Base ≠ b.Base) := by
  intro idxs
  induction idxs with
  | nil =>
      intro bases hs0 d hs d2 h hp hb
      simp only [heroFold, Option.some.injEq, Prod.mk.injEq] at h
      obtain ⟨h1, _⟩ := h
      subst h1
      simpa using hp
  | cons i rest ih =>
      intro bases hs0 d hs d2 h hp hb
      simp only [heroFold] at h
      cases hc : cs.Heroes[i]? with
      | none => simp [hc] at h
      | some c =>
          simp only [hc] at h
          by_cases hmem : c.Base ∈ bases
          · rw [if_pos hmem] at h; simp at h
          · rw [if_neg hmem] at h
            have hp2 : (hs0 ++ [c]).Pairwise (fun a b => a.Base ≠ b.Base) := by
              rw [List.pairwise_append]
              refine ⟨hp, by simp, ?_⟩
              intro a ha b hb2
              rw [List.mem_singleton] at hb2
              subst hb2
              intro hEq
              exact hmem (hEq ▸ hb a ha)
            have hb2 : ∀ x ∈ hs0 ++ [c], x.Base ∈ c.Base :: bases := by
              intro x hx
              rcases List.mem_append.mp hx with hx | hx
              · exact List.mem_cons_of_mem _ (hb x hx)
              · rw [List.mem_singleton] at hx
                subst hx
                exact List.mem_cons_self _ _
            have hrec := ih (c.Base :: bases) (hs0 ++ [c]) (d + c.Points) hs d2 h hp2 hb2
            refine ⟨?_, hrec.2⟩
            rw [hrec.1, List.length_append]
            simp
            omega

/-- Whatever the pool, player count and randomness, a successful hero draw
returns exactly `pc` heroes with pairwise distinct bases. -/
lemma heroLoop_ok (cs : CardSet) (pc : Int) (g : Rng) :
    ∀ (fuel k : Nat) (d : Int) (hs : List Card) (d2 : Int) (k2 : Nat),
      heroLoop cs pc g fuel k d = .ok hs d2 k2 →
      (hs.length : Int) = pc ∧ hs.Pairwise (fun a b => a.Base ≠ b.Base) := by
  intro fuel
  induction fuel with
  | zero => intro k d hs d2 k2 h; simp [heroLoop] at h
  | succ fuel ih =>
      intro k d hs d2 k2 h
      simp only [heroLoop] at h
      cases hp : pick (cs.Heroes.length : Int) pc g k with
      | none => simp [hp] at h
      | some pr =>
          obtain ⟨idxs, k3⟩ := pr
          simp only [hp] at h
          cases hf : heroFold cs idxs [] [] d with
          | none => simp [hf] at h
          | some pr2 =>
              obtain ⟨opt, d3⟩ := pr2
              cases opt with
              | none =>
                  simp only [hf] at h
                  exact ih k3 d3 hs d2 k2 h
              | some hs3 =>
                  simp only [hf] at h
                  obtain ⟨hpos, hle, hlen⟩ :=
                    pick_ok (cs.Heroes.length : Int) pc g k idxs k3 hp
                  obtain ⟨hlen2, hpair⟩ := heroFold_ok cs idxs [] [] d hs3 d3 hf
                    (by simp) (by simp)
                  injection h with h1 h2 h3
                  subst h1
                  constructor
                  · rw [hlen2]
                    simp only [List.length_nil, Nat.zero_add, hlen]
                    omega
                  · exact hpair

/-- A produced candidate's hero list is exactly what the hero retry loop
returned. -/
lemma makeSetup_made_heroes (cs : CardSet) (pc pcpts : Int) (fuel : Nat) (g : Rng)
    (k k2 : Nat) (s : Setup) (h : makeSetup cs pc pcpts fuel g k = .made s k2) :
    ∃ d k3, heroLoop cs pc g fuel k pcpts = .ok s.Heroes d k3 := by
  unfold makeSetup at h
  by_cases hlen : (cs.Heroes.length : Int) < pc
  · rw [if_pos hlen] at h; simp at h
  · rw [if_neg hlen] at h
    cases hl : heroLoop cs pc g fuel k pcpts with
    | crash => simp [hl] at h
    | spin => simp [hl] at h
    | ok hs d k3 =>
        simp only [hl] at h
        cases hv : randIntn g k3 cs.Villains.length with
        | none => simp [hv] at h
        | some p =>
            obtain ⟨vi, k4⟩ := p
            simp only [hv] at h
            cases hvc : cs.Villains[vi]? with
            | none => simp [hvc] at h
            | some v =>
                simp only [hvc] at h
                cases he : randIntn g k4 cs.Environments.length with
                | none => simp [he] at h
                | some q =>
                    obtain ⟨ei, k5⟩ := q
                    simp only [he] at h
                    cases hec : cs.Environments[ei]? with
                    | none => simp [hec] at h
                    | some e =>
                        simp only [hec] at h
                        injection h with h1 h2
                        subst h1
                        exact ⟨d, k3, by simpa using hl⟩

/-- C8: for every pool, player count, offset and randomness, every candidate
the sampler produces contains exactly `pc` player-characters whose base
identities are pairwise distinct. -/
theorem C8_distinct_bases (cs : CardSet) (pc pcpts : Int) (fuel : Nat) (g : Rng)
    (k k2 : Nat) (s : Setup) (hpc : pc ≤ (cs.Heroes.length : Int))
    (h : makeSetup cs pc pcpts fuel g k = .made s k2) :
    (s.Heroes.length : Int) = pc ∧ s.Heroes.Pairwise (fun a b => a.Base ≠ b.Base) := by
  clear hpc
  obtain ⟨d, k3, hl⟩ := makeSetup_made_heroes cs pc pcpts fuel g k k2 s h
  exact heroLoop_ok cs pc g fuel k pcpts s.Heroes d k3 hl

/-- Witness for C8_distinct_bases: the cs3 pool at player count 3. -/
theorem C8_distinct_bases_witness :
    (s42Setup.Heroes.length : Int) = 3 ∧
      s42Setup.Heroes.Pairwise (fun a b => a.Base ≠ b.Base) :=
  C8_distinct_bases cs3 3 42 2 gZ 0 5 s42Setup (by decide) (by decide)

/-- C5, amended: when the eligible pool has no antagonist record or no
environment record, the sampler never returns a candidate — once the hero
stage is past, the uniform draw over the empty collection crashes (Go's
rand.Intn on a zero bound), so no StructuralError is produced. -/
theorem C5_no_candidate (cs : CardSet) (pc pcpts : Int) (fuel : Nat) (g : Rng)
    (k k2 : Nat) (s : Setup) (h : cs.Villains = [] ∨ cs.Environments = []) :
    makeSetup cs pc pcpts fuel g k ≠ .made s k2 := by
  intro hmade
  unfold makeSetup at hmade
  by_cases hlen : (cs.Heroes.length : Int) < pc
  · rw [if_pos hlen] at hmade; simp at hmade
  · rw [if_neg hlen] at hmade
    cases hl : heroLoop cs pc g fuel k pcpts with
    | crash => simp [hl] at hmade
    | spin => simp [hl] at hmade
    | ok hs d k3 =>
        simp only [hl] at hmade
        rcases h with h | h
        · rw [h] at hmade
          simp [randIntn] at hmade
        · cases hv : randIntn g k3 cs.Villains.length with
          | none => simp [hv] at hmade
          | some p =>
              obtain ⟨vi, k4⟩ := p
              simp only [hv] at hmade
              cases hvc : cs.Villains[vi]? with
              | none => simp [hvc] at hmade
              | some v =>
                  simp only [hvc] at hmade
                  rw [h] at hmade
                  simp [randIntn] at hmade

/-- Witness for C5_no_candidate: the villain-free pool csNoVillain. -/
theorem C5_no_candidate_witness :
    makeSetup csNoVillain 3 42 2 gZ 0 ≠ .made s42Setup 5 :=
  C5_no_candidate csNoVillain 3 42 2 gZ 0 5 s42Setup (Or.inl rfl)

/-- C5, counterexample: on a pool with three heroes and an environment but NO
villain record, the sampler crashes (Go's rand.Intn(0) aborts the process)
and FindSetup propagates the crash; no StructuralError (no `failed` result)
is surfaced to the caller, contrary to the claim. -/
theorem C5_cx :
    makeSetup csNoVillain 3 42 2 gZ 0 = .crash ∧
    FindSetup theSd csNoVillain 3 50 10 2 gZ = .crash :=
  ⟨rfl, rfl⟩

/-- C1 (the score-leak bug): in the pool csLeak with offset 0, the oracle
gLeak makes the first draw pick the two base-"A" heroes (discarded for the
duplicate base), and the retry picks heroes A and B. The produced candidate
has heroes A (+10) and B (-10) with point sum 0, a 0-point villain and
environment, and offset 0 — yet its Difficulty is 10: hero A's +10 from the
DISCARDED draw leaked into the accumulator, which the code never resets on
retry. The claimed additive sum (which here equals 0) is violated. -/
theorem C1_score_leak :
    makeSetup csLeak 2 0 3 gLeak 0 = .made sLeakWit 8 ∧
    sLeakWit.Difficulty ≠
      sLeakWit.PcPoints + (sLeakWit.Heroes.map (fun c => c.Points)).sum +
        sLeakWit.Villain.Points + sLeakWit.Environment.Points :=
  ⟨rfl, by decide⟩

/-- Unfolding FindSetup (the band is a pure value, so the let zeta-reduces). -/
lemma FindSetup_eq (sd : SentinelsData) (cs : CardSet) (pc lp rg : Int)
    (fuelM : Nat) (g : Rng) :
    FindSetup sd cs pc lp rg fuelM g =
      match intGet sd.Difficulty.Nump (pc - 3) with
      | none => .crash
      | some dn =>
          findSetupLoop cs pc dn.Points (sd.findDifficultyRange lp).1
            (sd.findDifficultyRange lp).2 rg fuelM 100000 0 g 0 := rfl

/-- The only Go error makeSetup ever returns is the too-many-players one. -/
lemma makeSetup_mkFailed (cs : CardSet) (pc pcpts : Int) (fuel : Nat) (g : Rng)
    (k : Nat) (msg : String)
    (h : makeSetup cs pc pcpts fuel g k = .mkFailed msg) : msg = tooManyMsg := by
  unfold makeSetup at h
  by_cases hlen : (cs.Heroes.length : Int) < pc
  · rw [if_pos hlen] at h
    injection h with h1
    exact h1.symm
  · rw [if_neg hlen] at h
    cases hl : heroLoop cs pc g fuel k pcpts with
    | crash => simp [hl] at h
    | spin => simp [hl] at h
    | ok hs d k3 =>
        simp only [hl] at h
        cases hv : randIntn g k3 cs.Villains.length with
        | none => simp [hv] at h
        | some p =>
            obtain ⟨vi, k4⟩ := p
            simp only [hv] at h
            cases hvc : cs.Villains[vi]? with
            | none => simp [hvc] at h
            | some v =>
                simp only [hvc] at h
                cases he : randIntn g k4 cs.Environments.length with
                | none => simp [he] at h
                | some q =>
                    obtain ⟨ei, k5⟩ := q
                    simp only [he] at h
                    cases hec : cs.Environments[ei]? with
                    | none => simp [hec] at h
                    | some e => simp [hec] at h

/-- After a made draw the rest of the draw sequence continues from the
advanced cursor. -/
lemma drawSeq_succ (cs : CardSet) (pc pcpts : Int) (fuelM : Nat) (g : Rng)
    (k k2 : Nat) (s : Setup) (j : Nat)
    (h : makeSetup cs pc pcpts fuelM g k = .made s k2) :
    drawSeq cs pc pcpts fuelM g k (j + 1) = drawSeq cs pc pcpts fuelM g k2 j := by
  simp only [drawSeq, h]

/-- Exhaustion characterization of the trial loop: a failure carrying the
exhaustion message reports i + fuel + 1, and every one of the `fuel` draws
before it was made and rejected. -/
lemma loop_failed_chars (cs : CardSet) (pc pcpts mn mx rg : Int) (fuelM : Nat)
    (g : Rng) :
    ∀ (fuel i k n : Nat),
      findSetupLoop cs pc pcpts mn mx rg fuelM fuel i g k = .failed exhaustMsg n →
      n = i + fuel + 1 ∧
        ∀ j, j < fuel → ∃ s2 k3, drawSeq cs pc pcpts fuelM g k j = .made s2 k3 ∧
          ¬ inBand mn mx rg s2 := by
  intro fuel
  induction fuel with
  | zero =>
      intro i k n h
      simp only [findSetupLoop] at h
      injection h with h1 h2
      exact ⟨by omega, fun j hj => absurd hj (by omega)⟩
  | succ fuel ih =>
      intro i k n h
      simp only [findSetupLoop] at h
      cases hm : makeSetup cs pc pcpts fuelM g k with
      | crash => simp [hm] at h
      | spin => simp [hm] at h
      | mkFailed msg =>
          simp only [hm] at h
          injection h with h1 h2
          have := makeSetup_mkFailed cs pc pcpts fuelM g k msg hm
          subst this
          exact absurd h1.symm (by decide)
      | made s k3 =>
          simp only [hm] at h
          by_cases hb : mn - rg ≤ s.Difficulty ∧ s.Difficulty ≤ mx + rg
          · rw [if_pos hb] at h
            simp at h
          · rw [if_neg hb] at h
            obtain ⟨hn, hrej⟩ := ih (i + 1) k3 n h
            refine ⟨by omega, ?_⟩
            intro j hj
            cases j with
            | zero => exact ⟨s, k3, hm, hb⟩
            | succ j2 =>
                rw [drawSeq_succ cs pc pcpts fuelM g k k3 s j2 hm]
                exact hrej j2 (by omega)

/-- Acceptance characterization of the trial loop: a found result carries the
1-based index of the first in-band draw, whose candidate it returns; every
earlier draw was made and rejected. -/
lemma loop_found_chars (cs : CardSet) (pc pcpts mn mx rg : Int) (fuelM : Nat)
    (g : Rng) :
    ∀ (fuel i k : Nat) (s : Setup) (n : Nat),
      findSetupLoop cs pc pcpts mn mx rg fuelM fuel i g k = .found s n →
      i < n ∧ n ≤ i + fuel ∧
        (∃ k3, drawSeq cs pc pcpts fuelM g k (n - 1 - i) = .made s k3 ∧
           inBand mn mx rg s) ∧
        ∀ j, j < n - 1 - i → ∃ s2 k3, drawSeq cs pc pcpts fuelM g k j = .made s2 k3 ∧
          ¬ inBand mn mx rg s2 := by
  intro fuel
  induction fuel with
  | zero => intro i k s n h; simp [findSetupLoop] at h
  | succ fuel ih =>
      intro i k s n h
      simp only [findSetupLoop] at h
      cases hm : makeSetup cs pc pcpts fuelM g k with
      | crash => simp [hm] at h
      | spin => simp [hm] at h
      | mkFailed msg => simp [hm] at h
      | made s2 k3 =>
          simp only [hm] at h
          by_cases hb : mn - rg ≤ s2.Difficulty ∧ s2.Difficulty ≤ mx + rg
          · rw [if_pos hb] at h
            injection h with h1 h2
            subst h1
            subst h2
            refine ⟨by omega, by omega, ⟨k3, ?_, hb⟩, ?_⟩
            · have h0 : i + 1 - 1 - i = 0 := by omega
              rw [h0]
              exact hm
            · intro j hj
              exact absurd hj (by omega)
          · rw [if_neg hb] at h
            obtain ⟨h1, h2, ⟨k4, hd, hbd⟩, hrej⟩ := ih (i + 1) k3 s n h
            refine ⟨by omega, by omega, ⟨k4, ?_, hbd⟩, ?_⟩
            · have heq : n - 1 - i = (n - 1 - (i + 1)) + 1 := by omega
              rw [heq, drawSeq_succ cs pc pcpts fuelM g k k3 s2 _ hm]
              exact hd
            · intro j hj
              cases j with
              | zero => exact ⟨s2, k3, hm, hb⟩
              | succ j2 =>
                  rw [drawSeq_succ cs pc pcpts fuelM g k k3 s2 j2 hm]
                  exact hrej j2 (by omega)

/-- If every draw the loop can make is a rejected candidate, the trial loop
runs its full fuel and reports i + fuel + 1. -/
lemma loop_exhaust (cs : CardSet) (pc pcpts mn mx rg : Int) (fuelM : Nat) (g : Rng)
    (H : ∀ k, ∃ s k3, makeSetup cs pc pcpts fuelM g k = .made s k3 ∧
        ¬(mn - rg ≤ s.Difficulty ∧ s.Difficulty ≤ mx + rg)) :
    ∀ (fuel i k : Nat),
      findSetupLoop cs pc pcpts mn mx rg fuelM fuel i g k =
        .failed exhaustMsg (i + fuel + 1) := by
  intro fuel
  induction fuel with
  | zero => intro i k; rfl
  | succ fuel ih =>
      intro i k
      obtain ⟨s, k3, hm, hb⟩ := H k
      simp only [findSetupLoop, hm, if_neg hb]
      rw [ih (i + 1) k3]
      congr 1
      omega

/-- Under the all-zero oracle every cs3 draw succeeds at any cursor: pick
yields the identity permutation of the three distinct-base heroes and the
setup scores exactly the offset 42. -/
lemma makeSetup_cs3 (k : Nat) : makeSetup cs3 3 42 2 gZ k = .made s42Setup (k + 5) := rfl

/-- The cs3 search at target 100 (an unmatched percentage, so band (0,0))
with tolerance 0 rejects every 42-scoring draw and exhausts. -/
lemma cs3_exhaust : FindSetup theSd cs3 3 100 0 2 gZ = .failed exhaustMsg 100001 := by
  have H : ∀ k, ∃ s k3, makeSetup cs3 3 42 2 gZ k = .made s k3 ∧
      ¬((0 : Int) - 0 ≤ s.Difficulty ∧ s.Difficulty ≤ 0 + 0) :=
    fun k => ⟨s42Setup, k + 5, makeSetup_cs3 k, by decide⟩
  calc FindSetup theSd cs3 3 100 0 2 gZ
      = findSetupLoop cs3 3 42 0 0 0 2 100000 0 gZ 0 := rfl
    _ = .failed exhaustMsg (0 + 100000 + 1) := loop_exhaust cs3 3 42 0 0 0 2 gZ H 100000 0 0
    _ = .failed exhaustMsg 100001 := by norm_num

/-- C2, counterexample: with the cs3 pool, player count 3, target 100 (no
matching breakpoint, so band (0,0)) and tolerance 0, every draw scores 42 and
is rejected; the search performs its 100000 draws and then reports 100001
trials used — not exactly maxTrials = 100000, as the claim states. -/
theorem C2_cx :
    FindSetup theSd cs3 3 100 0 2 gZ = .failed exhaustMsg 100001 ∧
    FindSetup theSd cs3 3 100 0 2 gZ ≠ .failed exhaustMsg 100000 := by
  refine ⟨cs3_exhaust, ?_⟩
  rw [cs3_exhaust]
  simp

/-- C2, amended: the search performs at most 100000 draws. On exhaustion (the
failure carrying the search-exhausted message) the reported count is
100001 = maxTrials + 1 — one more than the 100000 draws actually performed,
each of which was made and rejected; when a candidate is accepted, the
reported count is exactly the 1-based index of the first accepted draw and
every earlier draw was made and rejected. -/
theorem C2_trials (sd : SentinelsData) (cs : CardSet) (pc lp rg : Int)
    (fuelM : Nat) (g : Rng) :
    (∀ n, FindSetup sd cs pc lp rg fuelM g = .failed exhaustMsg n → n = 100001) ∧
    (∀ (pcpts mn mx : Int) (k : Nat),
      (∀ n, findSetupLoop cs pc pcpts mn mx rg fuelM 100000 0 g k =
          .failed exhaustMsg n →
        n = 100001 ∧ ∀ j, j < 100000 →
          ∃ s2 k3, drawSeq cs pc pcpts fuelM g k j = .made s2 k3 ∧
            ¬ inBand mn mx rg s2) ∧
      (∀ (s : Setup) (n : Nat),
        findSetupLoop cs pc pcpts mn mx rg fuelM 100000 0 g k = .found s n →
        1 ≤ n ∧ n ≤ 100000 ∧
          (∃ k3, drawSeq cs pc pcpts fuelM g k (n - 1) = .made s k3 ∧
             inBand mn mx rg s) ∧
          ∀ j, j < n - 1 → ∃ s2 k3, drawSeq cs pc pcpts fuelM g k j = .made s2 k3 ∧
            ¬ inBand mn mx rg s2)) := by
  constructor
  · intro n h
    rw [FindSetup_eq] at h
    cases hg : intGet sd.Difficulty.Nump (pc - 3) with
    | none =>
        simp only [hg] at h
        simp at h
    | some dn =>
        simp only [hg] at h
        have := (loop_failed_chars cs pc dn.Points _ _ rg fuelM g 100000 0 0 n h).1
        omega
  · intro pcpts mn mx k
    constructor
    · intro n h
      obtain ⟨hn, hrej⟩ := loop_failed_chars cs pc pcpts mn mx rg fuelM g 100000 0 k n h
      exact ⟨by omega, hrej⟩
    · intro s n h
      obtain ⟨h1, h2, hacc, hrej⟩ := loop_found_chars cs pc pcpts mn mx rg fuelM g 100000 0 k s n h
      exact ⟨by omega, by omega, hacc, hrej⟩

/-- Witness for C2_trials: the exhausting cs3 search at target 100 reports
100001. -/
theorem C2_trials_witness :
    FindSetup theSd cs3 3 100 0 2 gZ = .failed exhaustMsg 100001 ∧
      (100001 : Nat) = 100001 :=
  ⟨cs3_exhaust, (C2_trials theSd cs3 3 100 0 2 gZ).1 100001 cs3_exhaust⟩

/-- C7: the acceptance test. A returned candidate's score always lies in
[min - rg, max + rg] for the band (min, max) computed from the target loss
percentage before the loop; conversely a drawn candidate whose score lies in
the widened band is accepted and returned immediately with its 1-based trial
index. -/
theorem C7_accept_iff (sd : SentinelsData) (cs : CardSet) (pc lp rg : Int)
    (fuelM : Nat) (g : Rng) :
    (∀ (s : Setup) (n : Nat), FindSetup sd cs pc lp rg fuelM g = .found s n →
      (sd.findDifficultyRange lp).1 - rg ≤ s.Difficulty ∧
        s.Difficulty ≤ (sd.findDifficultyRange lp).2 + rg) ∧
    (∀ (pcpts mn mx : Int) (fuel i k k3 : Nat) (s : Setup),
      makeSetup cs pc pcpts fuelM g k = .made s k3 →
      mn - rg ≤ s.Difficulty → s.Difficulty ≤ mx + rg →
      findSetupLoop cs pc pcpts mn mx rg fuelM (fuel + 1) i g k = .found s (i + 1)) := by
  constructor
  · intro s n h
    rw [FindSetup_eq] at h
    cases hg : intGet sd.Difficulty.Nump (pc - 3) with
    | none =>
        simp only [hg] at h
        simp at h
    | some dn =>
        simp only [hg] at h
        obtain ⟨k3, _, hb⟩ :=
          (loop_found_chars cs pc dn.Points _ _ rg fuelM g 100000 0 0 s n h).2.2.1
        exact hb
  · intro pcpts mn mx fuel i k k3 s hm h1 h2
    simp only [findSetupLoop, hm, if_pos (⟨h1, h2⟩ : _ ∧ _)]

/-- Witness for C7_accept_iff: with band (105,105) and tolerance 100 the
42-scoring cs3 draw is accepted at trial 1. -/
theorem C7_accept_iff_witness :
    findSetupLoop cs3 3 42 105 105 100 2 1 0 gZ 0 = .found s42Setup 1 :=
  (C7_accept_iff theSd cs3 3 50 100 2 gZ).2 42 105 105 0 0 0 5 s42Setup
    (makeSetup_cs3 0) (by decide) (by decide)

/-- One loop step on a structurally failing draw returns the error with
count 0. -/
lemma loop_mkFailed (cs : CardSet) (pc pcpts mn mx rg : Int) (fuelM : Nat)
    (g : Rng) (k i fuel : Nat)
    (h : makeSetup cs pc pcpts fuelM g k = .mkFailed tooManyMsg) :
    findSetupLoop cs pc pcpts mn mx rg fuelM (fuel + 1) i g k =
      .failed tooManyMsg 0 := by
  simp only [findSetupLoop, h]

/-- C9, amended: for a player count in the offset table's domain 3..5 that
exceeds the number of eligible heroes, FindSetup fails on the very first
draw with the structural too-many-players error and reports 0 trials used
(makeSetup rejects before consuming any randomness). Outside 3..5 the
unchecked offset lookup crashes first (claim C10), so the structural error
is never reached. -/
theorem C9_struct_error (cs : CardSet) (lp rg pc : Int) (fuelM : Nat) (g : Rng)
    (h3 : 3 ≤ pc) (h5 : pc ≤ 5) (hx : (cs.Heroes.length : Int) < pc) :
    FindSetup theSd cs pc lp rg fuelM g = .failed tooManyMsg 0 := by
  have hmk : makeSetup cs pc 0 fuelM g 0 = .mkFailed tooManyMsg := by
    unfold makeSetup
    rw [if_pos hx]
  interval_cases pc
  · show findSetupLoop cs 3 42 (theSd.findDifficultyRange lp).1
        (theSd.findDifficultyRange lp).2 rg fuelM 100000 0 g 0 = .failed tooManyMsg 0
    rw [show (100000 : Nat) = 99999 + 1 from rfl]
    exact loop_mkFailed cs 3 42 _ _ rg fuelM g 0 0 99999
      (by unfold makeSetup; rw [if_pos hx])
  · show findSetupLoop cs 4 (-38) (theSd.findDifficultyRange lp).1
        (theSd.findDifficultyRange lp).2 rg fuelM 100000 0 g 0 = .failed tooManyMsg 0
    rw [show (100000 : Nat) = 99999 + 1 from rfl]
    exact loop_mkFailed cs 4 (-38) _ _ rg fuelM g 0 0 99999
      (by unfold makeSetup; rw [if_pos hx])
  · show findSetupLoop cs 5 (-42) (theSd.findDifficultyRange lp).1
        (theSd.findDifficultyRange lp).2 rg fuelM 100000 0 g 0 = .failed tooManyMsg 0
    rw [show (100000 : Nat) = 99999 + 1 from rfl]
    exact loop_mkFailed cs 5 (-42) _ _ rg fuelM g 0 0 99999
      (by unfold makeSetup; rw [if_pos hx])

/-- Witness for C9_struct_error: four players against the three heroes of
cs3. -/
theorem C9_struct_error_witness :
    FindSetup theSd cs3 4 50 10 2 gZ = .failed tooManyMsg 0 :=
  C9_struct_error cs3 50 10 4 2 gZ (by decide) (by decide) (by decide)

/-- C9, counterexample: player count 6 exceeds the three eligible heroes of
cs3, yet FindSetup does not fail with the structural error and zero trials —
the unchecked Nump[6-3] offset lookup crashes first. -/
theorem C9_cx :
    FindSetup theSd cs3 6 50 10 2 gZ = .crash ∧
    FindSetup theSd cs3 6 50 10 2 gZ ≠ .failed tooManyMsg 0 :=
  ⟨rfl, by decide⟩

end Sentinels
